import Mathlib

/-!
Shallow embedding of `src/server.js`: an Express CRUD service for a
products collection, with logging, a static API-key gate, JSON body
parsing, seven resource routes and a centralized error handler.

Conventions of the embedding:
* JS runtime values occurring in parsed JSON bodies are modelled by `JsVal`;
  a parsed body is an association list with distinct keys.
* `typeof x === "string"` style checks are modelled by shape tests on
  `Option JsVal` (absent property = `none` = `undefined`).
* JS `parseInt`, `||` defaulting, `Array.prototype.slice`,
  `String.prototype.includes`, `Array.prototype.findIndex` and
  `Array.prototype.splice` are modelled by `parseIntJs`, `jsOr`, `jsSlice`,
  `strIncludes`, `findIndex` and `removeAt`.
* Express route registration order is the order of `routeTable`;
  `dispatch` scans it first-match-wins, as Express does.
* The middleware pipeline (bodyParser, logger, auth gate, handler,
  error handler) is `runApp`, which also records the executed stages.
-/

set_option linter.unusedVariables false

/-- JS runtime values appearing in parsed JSON request bodies. -/
inductive JsVal where
  | str : String → JsVal
  | num : Rat → JsVal
  | bool : Bool → JsVal
  | null : JsVal
  | arr : List JsVal → JsVal
  | obj : List (String × JsVal) → JsVal

/-- Property access `body.k` on a parsed JSON object (absent = undefined). -/
def getField (body : List (String × JsVal)) (k : String) : Option JsVal :=
  (body.find? (fun kv => kv.1 == k)).map (fun kv => kv.2)

/-- The value when `typeof v === "string"`, else `none`. -/
def asString : Option JsVal → Option String
  | some (JsVal.str s) => some s
  | _ => none

/-- The value when `typeof v === "number"`, else `none`. -/
def asNumber : Option JsVal → Option Rat
  | some (JsVal.num q) => some q
  | _ => none

/-- The value when `typeof v === "boolean"`, else `none`. -/
def asBoolean : Option JsVal → Option Bool
  | some (JsVal.bool b) => some b
  | _ => none

/-- `typeof v === "string"` as a Bool. -/
def isStringV (o : Option JsVal) : Bool := (asString o).isSome

/-- `typeof v === "number"` as a Bool. -/
def isNumberV (o : Option JsVal) : Bool := (asNumber o).isSome

/-- `typeof v === "boolean"` as a Bool. -/
def isBooleanV (o : Option JsVal) : Bool := (asBoolean o).isSome

/-- Whitespace skipped by JS `parseInt`. -/
def isWs (c : Char) : Bool := c == ' ' || c == '\t' || c == '\n' || c == '\r'

/-- Hex digit test for the `0x` branch of `parseInt`. -/
def isHexDig (c : Char) : Bool :=
  c.isDigit || ('a' ≤ c && c ≤ 'f') || ('A' ≤ c && c ≤ 'F')

/-- Numeric value of a hex digit. -/
def hexVal (c : Char) : Nat :=
  if c.isDigit then c.toNat - 48
  else if 'a' ≤ c && c ≤ 'f' then c.toNat - 87
  else c.toNat - 55

/-- Digit string to Nat in the given base. -/
def digitsToNat (base : Nat) (val : Char → Nat) (ds : List Char) : Nat :=
  ds.foldl (fun a c => a * base + val c) 0

/-- JS `parseInt(s)` (radix unspecified): skip whitespace, optional sign,
`0x`/`0X` hex prefix or longest decimal digit prefix; NaN becomes `none`.
`parseInt` of `undefined` is handled by callers mapping over `Option`. -/
def parseIntJs (s : String) : Option Int :=
  let cs := s.toList.dropWhile isWs
  let signed : Int × List Char :=
    match cs with
    | '-' :: t => (-1, t)
    | '+' :: t => (1, t)
    | _ => (1, cs)
  match signed.2 with
  | '0' :: 'x' :: t =>
    let ds := t.takeWhile isHexDig
    if ds.isEmpty then none else some (signed.1 * (digitsToNat 16 hexVal ds : Nat))
  | '0' :: 'X' :: t =>
    let ds := t.takeWhile isHexDig
    if ds.isEmpty then none else some (signed.1 * (digitsToNat 16 hexVal ds : Nat))
  | rest =>
    let ds := rest.takeWhile Char.isDigit
    if ds.isEmpty then none
    else some (signed.1 * (digitsToNat 10 (fun c => c.toNat - 48) ds : Nat))

/-- JS `x || d` over a parsed integer: NaN (`none`) and `0` (also `-0`)
are falsy and replaced by the default. -/
def jsOr (o : Option Int) (d : Int) : Int :=
  match o with
  | none => d
  | some v => if v = 0 then d else v

/-- Index resolution of `Array.prototype.slice`: negative indices count
from the end (clamped at 0), positive ones are clamped at the length. -/
def jsSliceIdx (len : Nat) (i : Int) : Nat :=
  if i < 0 then ((len : Int) + i).toNat else min i.toNat len

/-- JS `l.slice(s, e)`. -/
def jsSlice {α : Type} (l : List α) (s e : Int) : List α :=
  (l.take (jsSliceIdx l.length e)).drop (jsSliceIdx l.length s)

/-- Helper for `strIncludes`: does `needle` occur contiguously in the list? -/
def subList (needle : List Char) : List Char → Bool
  | [] => needle.isEmpty
  | hay@(_ :: t) => needle.isPrefixOf hay || subList needle t

/-- JS `hay.includes(needle)` on strings. -/
def strIncludes (hay needle : String) : Bool := subList needle.toList hay.toList

/-- JS `s.toLowerCase()` (character-wise case folding). -/
def strToLower (s : String) : String := ⟨s.data.map Char.toLower⟩

/-- JS `Array.prototype.findIndex` (result `-1` modelled as `none`). -/
def findIndex {α : Type} (pred : α → Bool) : List α → Option Nat
  | [] => none
  | a :: t => if pred a then some 0 else (findIndex pred t).map (fun i => i + 1)

/-- JS `arr.splice(i, 1)`: the array with the element at index `i` removed. -/
def removeAt {α : Type} : List α → Nat → List α
  | [], _ => []
  | _ :: t, 0 => t
  | a :: t, n + 1 => a :: removeAt t n

/-- A stored product record: generated `id` plus the five business fields. -/
structure Product where
  id : String
  name : String
  description : String
  price : Rat
  category : String
  inStock : Bool
deriving DecidableEq

/-- The typed errors thrown by handlers (`NotFoundError`, `ValidationError`). -/
inductive AppError where
  | notFoundError : String → AppError
  | validationError : String → AppError
deriving DecidableEq

/-- The `status` property the error classes set (404 resp. 400). -/
def AppError.status : AppError → Nat
  | .notFoundError _ => 404
  | .validationError _ => 400

/-- The `message` property of the error. -/
def AppError.message : AppError → String
  | .notFoundError m => m
  | .validationError m => m

/-- Response bodies the server can produce. -/
inductive RespBody where
  | text : String → RespBody
  | product : Product → RespBody
  | productList : List Product → RespBody
  | envelope : Int → Int → Nat → List Product → RespBody
  | jsonErr : String → RespBody
  | statsMap : List (String × Nat) → RespBody
  | empty : RespBody
  | expressDefault : RespBody
deriving DecidableEq

/-- An HTTP response: status code and body. -/
structure Response where
  status : Nat
  body : RespBody
deriving DecidableEq

/-- HTTP methods used by the app. -/
inductive Method where
  | GET | POST | PUT | DELETE
deriving DecidableEq, BEq

/-- An inbound request: method, path segments, query, headers, parsed body. -/
structure Request where
  method : Method
  path : List String
  query : List (String × String)
  headers : List (String × String)
  body : List (String × JsVal)

/-- Pipeline stages that can execute while serving one request. -/
inductive Stage where
  | bodyParse | logger | auth | handlerRun | errorH
deriving DecidableEq

/-- Result of serving one request: response, store afterwards, stage trace. -/
structure RunResult where
  resp : Response
  store : List Product
  trace : List Stage
deriving DecidableEq

/-- Tags naming the seven registered routes plus the root route. -/
inductive HTag where
  | root | list | getById | create | update | remove | search | stats
deriving DecidableEq

/-- One segment of an Express route pattern: literal or `:param`. -/
inductive Seg where
  | lit : String → Seg
  | param : Seg

/-- Does a pattern segment match a path segment? -/
def segMatch : Seg → String → Bool
  | .lit s, t => s == t
  | .param, _ => true

/-- Does a full pattern match a full path? -/
def patMatch : List Seg → List String → Bool
  | [], [] => true
  | s :: ps, t :: ts => segMatch s t && patMatch ps ts
  | _, _ => false

/-- The routes in source registration order: `GET /`, `GET /api/products`,
`GET /api/products/:id`, `POST /api/products`, `PUT /api/products/:id`,
`DELETE /api/products/:id`, `GET /api/products/search`,
`GET /api/products/stats`. -/
def routeTable : List (Method × List Seg × HTag) :=
  [ (Method.GET, [], HTag.root),
    (Method.GET, [Seg.lit "api", Seg.lit "products"], HTag.list),
    (Method.GET, [Seg.lit "api", Seg.lit "products", Seg.param], HTag.getById),
    (Method.POST, [Seg.lit "api", Seg.lit "products"], HTag.create),
    (Method.PUT, [Seg.lit "api", Seg.lit "products", Seg.param], HTag.update),
    (Method.DELETE, [Seg.lit "api", Seg.lit "products", Seg.param], HTag.remove),
    (Method.GET, [Seg.lit "api", Seg.lit "products", Seg.lit "search"], HTag.search),
    (Method.GET, [Seg.lit "api", Seg.lit "products", Seg.lit "stats"], HTag.stats) ]

/-- Express dispatch: first registered route whose method and pattern match. -/
def dispatch (m : Method) (path : List String) : Option HTag :=
  (routeTable.find? (fun r => r.1 == m && patMatch r.2.1 path)).map (fun r => r.2.2)

/-- Does the request hit the `app.get("/", ...)` route? -/
def isRootGet (m : Method) (path : List String) : Bool :=
  match path with
  | [] => m == Method.GET
  | _ => false

/-- Is the path under the `/api/products` mount of the auth middleware? -/
def isProductsPath : List String → Bool
  | a :: b :: _ => a == "api" && b == "products"
  | _ => false

/-- `authMiddleware` rejection test: `!apiKey || apiKey !== "mysecretapikey"`
(missing header or empty string are falsy). -/
def authRejects (apiKey : Option String) : Bool :=
  match apiKey with
  | none => true
  | some k => k == "" || k != "mysecretapikey"

/-- JS truthiness of an optional query-parameter string. -/
def jsTruthy : Option String → Bool
  | none => false
  | some s => s != ""

/-- Lookup in a query/header association list. -/
def lookupKV (l : List (String × String)) (k : String) : Option String :=
  (l.find? (fun kv => kv.1 == k)).map (fun kv => kv.2)

/-- `validateProduct` middleware: the five destructured body properties must
have the primitive types `string, string, number, string, boolean`. -/
def validateProduct (body : List (String × JsVal)) : Bool :=
  isStringV (getField body "name") &&
  isStringV (getField body "description") &&
  isNumberV (getField body "price") &&
  isStringV (getField body "category") &&
  isBooleanV (getField body "inStock")

/-- Destructuring `{name, description, price, category, inStock} = req.body`
and building the stored record with the given `id`; `none` exactly when
`validateProduct` fails (proved below). Any other body property, including
an `id` property, is ignored. -/
def extractProduct (id : String) (body : List (String × JsVal)) : Option Product :=
  match asString (getField body "name"), asString (getField body "description"),
        asNumber (getField body "price"), asString (getField body "category"),
        asBoolean (getField body "inStock") with
  | some n, some d, some pr, some c, some s => some ⟨id, n, d, pr, c, s⟩
  | _, _, _, _, _ => none

/-- Computed `page` of the list handler: `parseInt(req.query.page) || 1`. -/
def pageOf (o : Option String) : Int := jsOr (o.bind parseIntJs) 1

/-- Computed `limit` of the list handler: `parseInt(req.query.limit) || 10`. -/
def limitOf (o : Option String) : Int := jsOr (o.bind parseIntJs) 10

/-- Category filtering of the list handler: when `req.query.category` is
truthy, keep products whose lowercased category equals the lowercased
query value. -/
def filteredOf (store : List Product) (q : List (String × String)) : List Product :=
  if jsTruthy (lookupKV q "category") then
    store.filter (fun p =>
      strToLower p.category == strToLower ((lookupKV q "category").getD ""))
  else store

/-- The data slice of one list page:
`filtered.slice((page - 1) * limit, page * limit)`. -/
def pageData (store : List Product) (q : List (String × String))
    (page limit : Int) : List Product :=
  jsSlice (filteredOf store q) ((page - 1) * limit) (page * limit)

/-- `GET /api/products`: filter, paginate with `slice`, wrap in envelope. -/
def listHandler (store : List Product) (q : List (String × String)) : Response :=
  ⟨200, RespBody.envelope (pageOf (lookupKV q "page")) (limitOf (lookupKV q "limit"))
      (filteredOf store q).length
      (pageData store q (pageOf (lookupKV q "page")) (limitOf (lookupKV q "limit")))⟩

/-- `GET /api/products/:id`: `find` by id, throw `NotFoundError` if absent. -/
def getByIdRoute (store : List Product) (id : String) :
    Except AppError (Response × List Product) :=
  match store.find? (fun p => p.id == id) with
  | none => Except.error (AppError.notFoundError "Product not found")
  | some p => Except.ok (⟨200, RespBody.product p⟩, store)

/-- `POST /api/products`: validate, build record with fresh id, push. -/
def createRoute (freshId : String) (store : List Product)
    (body : List (String × JsVal)) : Except AppError (Response × List Product) :=
  match extractProduct freshId body with
  | none => Except.error (AppError.validationError "Invalid product data")
  | some p => Except.ok (⟨201, RespBody.product p⟩, store ++ [p])

/-- `PUT /api/products/:id`: validate first, then `findIndex`, then replace
the slot with a record whose id is the path id. -/
def updateRoute (pathId : String) (store : List Product)
    (body : List (String × JsVal)) : Except AppError (Response × List Product) :=
  match extractProduct pathId body with
  | none => Except.error (AppError.validationError "Invalid product data")
  | some p =>
    match findIndex (fun q => q.id == pathId) store with
    | none => Except.error (AppError.notFoundError "Product not found")
    | some i => Except.ok (⟨200, RespBody.product p⟩, store.set i p)

/-- `DELETE /api/products/:id`: `findIndex`, `splice` out the slot, 204. -/
def deleteRoute (pathId : String) (store : List Product) :
    Except AppError (Response × List Product) :=
  match findIndex (fun q => q.id == pathId) store with
  | none => Except.error (AppError.notFoundError "Product not found")
  | some i => Except.ok (⟨204, RespBody.empty⟩, removeAt store i)

/-- `GET /api/products/search`: 400 ad hoc when `name` is falsy, else
case-insensitive substring filter over names. -/
def searchRoute (store : List Product) (q : List (String × String)) : Response :=
  let nameQ := lookupKV q "name"
  if !(jsTruthy nameQ) then
    ⟨400, RespBody.jsonErr "Missing required query parameter: name"⟩
  else
    ⟨200, RespBody.productList
        (store.filter (fun p => strIncludes (strToLower p.name) (strToLower (nameQ.getD ""))))⟩

/-- One step of the stats reduce:
`acc[category] = (acc[category] || 0) + 1`, preserving key insertion order. -/
def bump : List (String × Nat) → String → List (String × Nat)
  | [], c => [(c, 1)]
  | (k, v) :: t, c => if k == c then (k, v + 1) :: t else (k, v) :: bump t c

/-- `GET /api/products/stats`: tally products by exact category string. -/
def statsRoute (store : List Product) : Response :=
  ⟨200, RespBody.statsMap (store.foldl (fun acc p => bump acc p.category) [])⟩

/-- `req.params.id` for the three-segment product routes. -/
def pathParam (path : List String) : String := path.getD 2 ""

/-- Run the matched route (including its `validateProduct` middleware,
fused into `extractProduct`); errors propagate to the error handler. -/
def runRoute (tag : HTag) (freshId : String) (store : List Product)
    (req : Request) : Except AppError (Response × List Product) :=
  match tag with
  | HTag.root => Except.ok (⟨200, RespBody.text "Hello World"⟩, store)
  | HTag.list => Except.ok (listHandler store req.query, store)
  | HTag.getById => getByIdRoute store (pathParam req.path)
  | HTag.create => createRoute freshId store req.body
  | HTag.update => updateRoute (pathParam req.path) store req.body
  | HTag.remove => deleteRoute (pathParam req.path) store
  | HTag.search => Except.ok (searchRoute store req.query, store)
  | HTag.stats => Except.ok (statsRoute store, store)

/-- The centralized error handler: map the thrown error to its status and
a `{error: message}` body. -/
def errorHandler (e : AppError) : Response :=
  ⟨AppError.status e, RespBody.jsonErr (AppError.message e)⟩

/-- The whole app pipeline in registration order: bodyParser, logger, the
root route, the auth gate mounted at `/api/products`, route dispatch, and
the terminal error handler. `freshId` stands for the `uuidv4()` call of the
create handler. The trace records the executed stages. -/
def runApp (freshId : String) (store : List Product) (req : Request) : RunResult :=
  if isRootGet req.method req.path then
    ⟨⟨200, RespBody.text "Hello World"⟩, store, [Stage.bodyParse, Stage.logger]⟩
  else if isProductsPath req.path then
    if authRejects (lookupKV req.headers "x-api-key") then
      ⟨⟨401, RespBody.jsonErr "Unauthorized: Invalid or missing API key"⟩, store,
        [Stage.bodyParse, Stage.logger, Stage.auth]⟩
    else
      match dispatch req.method req.path with
      | some tag =>
        match runRoute tag freshId store req with
        | Except.ok (r, st) =>
          ⟨r, st, [Stage.bodyParse, Stage.logger, Stage.auth, Stage.handlerRun]⟩
        | Except.error e =>
          ⟨errorHandler e, store,
            [Stage.bodyParse, Stage.logger, Stage.auth, Stage.handlerRun, Stage.errorH]⟩
      | none => ⟨⟨404, RespBody.expressDefault⟩, store,
          [Stage.bodyParse, Stage.logger, Stage.auth]⟩
  else
    ⟨⟨404, RespBody.expressDefault⟩, store, [Stage.bodyParse, Stage.logger]⟩

/-- The store invariant of the spec: ids are pairwise distinct. -/
def idsNodup (store : List Product) : Prop := (store.map Product.id).Nodup

instance (store : List Product) : Decidable (idsNodup store) := by
  unfold idsNodup
  infer_instance

/-- Spec-side predicate: the body supplies the five business fields with
the correct primitive types (other properties unconstrained). -/
def suppliesFiveTyped (body : List (String × JsVal)) : Prop :=
  (∃ s, getField body "name" = some (JsVal.str s)) ∧
  (∃ s, getField body "description" = some (JsVal.str s)) ∧
  (∃ x, getField body "price" = some (JsVal.num x)) ∧
  (∃ s, getField body "category" = some (JsVal.str s)) ∧
  (∃ b, getField body "inStock" = some (JsVal.bool b))

/-- Modelled from the spec words of the validator claim: the body supplies
EXACTLY the five business fields — correctly typed and with no property
outside the five. Stated for comparison with `validateProduct`, which is
the behaviour of the source. -/
def suppliesExactlyFive (body : List (String × JsVal)) : Prop :=
  suppliesFiveTyped body ∧
  ∀ kv ∈ body,
    kv.1 ∈ (["name", "description", "price", "category", "inStock"] : List String)

/-- A valid five-field body carrying one extra property. -/
def extraFieldBody : List (String × JsVal) :=
  [("name", JsVal.str "Pen"), ("description", JsVal.str "ink"),
   ("price", JsVal.num 1), ("category", JsVal.str "st"),
   ("inStock", JsVal.bool true), ("extra", JsVal.str "x")]

/-! ### Helper lemmas -/

lemma extractProduct_isSome (id : String) (body : List (String × JsVal)) :
    (extractProduct id body).isSome = validateProduct body := by
  unfold extractProduct validateProduct isStringV isNumberV isBooleanV
  cases h1 : asString (getField body "name") <;>
    cases h2 : asString (getField body "description") <;>
      cases h3 : asNumber (getField body "price") <;>
        cases h4 : asString (getField body "category") <;>
          cases h5 : asBoolean (getField body "inStock") <;>
            simp [h1, h2, h3, h4, h5]

lemma extractProduct_eq_none (id : String) (body : List (String × JsVal))
    (h : validateProduct body = false) : extractProduct id body = none := by
  have hs := extractProduct_isSome id body
  rw [h] at hs
  exact Option.not_isSome_iff_eq_none.mp (by simp [hs])

lemma extractProduct_eq_some (id : String) (body : List (String × JsVal))
    (h : validateProduct body = true) : ∃ p, extractProduct id body = some p := by
  have hs := extractProduct_isSome id body
  rw [h] at hs
  exact Option.isSome_iff_exists.mp hs

lemma extractProduct_spec (id : String) (body : List (String × JsVal)) (p : Product)
    (h : extractProduct id body = some p) :
    p.id = id ∧
    asString (getField body "name") = some p.name ∧
    asString (getField body "description") = some p.description ∧
    asNumber (getField body "price") = some p.price ∧
    asString (getField body "category") = some p.category ∧
    asBoolean (getField body "inStock") = some p.inStock := by
  unfold extractProduct at h
  split at h
  · rename_i n d pr c s h1 h2 h3 h4 h5
    injection h with h
    subst h
    exact ⟨rfl, h1, h2, h3, h4, h5⟩
  · exact absurd h (by simp)

lemma getField_cons_of_ne (k1 : String) (v : JsVal) (body : List (String × JsVal))
    (k2 : String) (h : (k1 == k2) = false) :
    getField ((k1, v) :: body) k2 = getField body k2 := by
  unfold getField
  rw [List.find?_cons_of_neg]
  simp [h]

lemma lookupKV_cons_of_ne (k1 v : String) (rest : List (String × String))
    (k2 : String) (h : (k1 == k2) = false) :
    lookupKV ((k1, v) :: rest) k2 = lookupKV rest k2 := by
  unfold lookupKV
  rw [List.find?_cons_of_neg]
  simp [h]

lemma lookupKV_cons_self (k v : String) (rest : List (String × String)) :
    lookupKV ((k, v) :: rest) k = some v := by
  unfold lookupKV
  simp [List.find?_cons]

lemma find?_set_self (pid : String) (p : Product) (hp : (p.id == pid) = true) :
    ∀ (l : List Product) (i : Nat),
      findIndex (fun q => q.id == pid) l = some i →
      (l.set i p).find? (fun q => q.id == pid) = some p := by
  intro l
  induction l with
  | nil => intro i hi; simp [findIndex] at hi
  | cons a t ih =>
    intro i hi
    by_cases h : (a.id == pid) = true
    · simp only [findIndex, h, if_true] at hi
      injection hi with h0
      subst h0
      rw [List.set_cons_zero]
      simp [List.find?_cons, hp]
    · rw [Bool.not_eq_true] at h
      simp only [findIndex, h, Bool.false_eq_true, if_false] at hi
      rcases Option.map_eq_some'.mp hi with ⟨j, hj, hij⟩
      subst hij
      rw [List.set_cons_succ]
      simp only [List.find?_cons, h]
      exact ih j hj

lemma find?_removeAt_eq_none (pid : String) :
    ∀ (l : List Product) (i : Nat),
      (l.map Product.id).Nodup →
      findIndex (fun q => q.id == pid) l = some i →
      (removeAt l i).find? (fun q => q.id == pid) = none := by
  intro l
  induction l with
  | nil => intro i _ hi; simp [findIndex] at hi
  | cons a t ih =>
    intro i hnd hi
    rw [List.map_cons, List.nodup_cons] at hnd
    by_cases h : (a.id == pid) = true
    · simp only [findIndex, h, if_true] at hi
      injection hi with h0
      subst h0
      show t.find? (fun q => q.id == pid) = none
      rw [List.find?_eq_none]
      intro x hx hpx
      apply hnd.1
      rw [List.mem_map]
      refine ⟨x, hx, ?_⟩
      have hxe : x.id = pid := beq_iff_eq.mp hpx
      have hae : a.id = pid := beq_iff_eq.mp h
      rw [hxe, hae]
    · rw [Bool.not_eq_true] at h
      simp only [findIndex, h, Bool.false_eq_true, if_false] at hi
      rcases Option.map_eq_some'.mp hi with ⟨j, hj, hij⟩
      subst hij
      show (a :: removeAt t j).find? (fun q => q.id == pid) = none
      simp only [List.find?_cons, h]
      exact ih j hnd.2 hj

lemma map_id_set (pid : String) (p : Product) (hp : p.id = pid) :
    ∀ (l : List Product) (i : Nat),
      findIndex (fun q => q.id == pid) l = some i →
      (l.set i p).map Product.id = l.map Product.id := by
  intro l
  induction l with
  | nil => intro i hi; simp [findIndex] at hi
  | cons a t ih =>
    intro i hi
    by_cases h : (a.id == pid) = true
    · simp only [findIndex, h, if_true] at hi
      injection hi with h0
      subst h0
      rw [List.set_cons_zero, List.map_cons, List.map_cons]
      have hae : a.id = pid := beq_iff_eq.mp h
      rw [hp, hae]
    · rw [Bool.not_eq_true] at h
      simp only [findIndex, h, Bool.false_eq_true, if_false] at hi
      rcases Option.map_eq_some'.mp hi with ⟨j, hj, hij⟩
      subst hij
      rw [List.set_cons_succ, List.map_cons, List.map_cons, ih j hj]

lemma removeAt_sublist {α : Type} :
    ∀ (l : List α) (i : Nat), (removeAt l i).Sublist l := by
  intro l
  induction l with
  | nil => intro i; simp [removeAt]
  | cons a t ih =>
    intro i
    cases i with
    | zero => exact List.sublist_cons_self a t
    | succ n => exact List.Sublist.cons₂ a (ih n)

lemma nodup_append_fresh (store : List Product) (p : Product)
    (h1 : idsNodup store) (h2 : p.id ∉ store.map Product.id) :
    idsNodup (store ++ [p]) := by
  unfold idsNodup at h1 ⊢
  rw [List.map_append, List.nodup_append]
  refine ⟨h1, by simp, ?_⟩
  intro x hx hy
  simp only [List.map_cons, List.map_nil, List.mem_singleton] at hy
  subst hy
  exact h2 hx

lemma asString_isSome_iff (o : Option JsVal) :
    (asString o).isSome = true ↔ ∃ s, o = some (JsVal.str s) := by
  cases o with
  | none => simp [asString]
  | some v => cases v <;> simp [asString]

lemma asNumber_isSome_iff (o : Option JsVal) :
    (asNumber o).isSome = true ↔ ∃ x, o = some (JsVal.num x) := by
  cases o with
  | none => simp [asNumber]
  | some v => cases v <;> simp [asNumber]

lemma asBoolean_isSome_iff (o : Option JsVal) :
    (asBoolean o).isSome = true ↔ ∃ b, o = some (JsVal.bool b) := by
  cases o with
  | none => simp [asBoolean]
  | some v => cases v <;> simp [asBoolean]

lemma take_concat_drop_take {α : Type} (m d : Nat) (l : List α) :
    l.take m ++ (l.take (m + d)).drop m = l.take (m + d) := by
  have h : List.take m (List.take (m + d) l) = List.take m l := by
    rw [List.take_take]
    congr 1
    omega
  conv_lhs => rw [← h]
  exact List.take_append_drop m (l.take (m + d))

lemma flatten_slices {α : Type} (L : Nat) (l : List α) :
    ∀ n : Nat,
      ((List.range n).map (fun k => (l.take ((k + 1) * L)).drop (k * L))).flatten
        = l.take (n * L) := by
  intro n
  induction n with
  | zero => simp
  | succ n ih =>
    rw [List.range_succ, List.map_append, List.flatten_append, ih]
    simp only [List.map_cons, List.map_nil, List.flatten_cons, List.flatten_nil,
      List.append_nil]
    rw [Nat.succ_mul]
    exact take_concat_drop_take (n * L) L l

lemma jsSlice_natCast {α : Type} (l : List α) (s e : Nat) :
    jsSlice l (s : Int) (e : Int) = (l.take e).drop s := by
  unfold jsSlice jsSliceIdx
  rw [if_neg (by omega : ¬((e : Int) < 0)), if_neg (by omega : ¬((s : Int) < 0)),
    Int.toNat_natCast, Int.toNat_natCast]
  have h1 : List.take (e ⊓ l.length) l = List.take e l := by
    rw [← List.take_take, List.take_length]
  rw [h1]
  rcases Nat.le_total s l.length with h | h
  · congr 1
    omega
  · rw [List.drop_eq_nil_of_le, List.drop_eq_nil_of_le]
    · simp only [List.length_take]
      omega
    · simp only [List.length_take]
      omega

lemma pageData_nat (store : List Product) (q : List (String × String)) (k L : Nat) :
    pageData store q ((k : Int) + 1) ((L : Int) + 1)
      = ((filteredOf store q).take ((k + 1) * (L + 1))).drop (k * (L + 1)) := by
  unfold pageData
  have h1 : ((k : Int) + 1 - 1) * ((L : Int) + 1) = ((k * (L + 1) : Nat) : Int) := by
    push_cast
    ring
  have h2 : ((k : Int) + 1) * ((L : Int) + 1) = (((k + 1) * (L + 1) : Nat) : Int) := by
    push_cast
    ring
  rw [h1, h2, jsSlice_natCast]

lemma isRootGet_eq_false_of_products {m : Method} {path : List String}
    (h : isProductsPath path = true) : isRootGet m path = false := by
  cases path with
  | nil => simp [isProductsPath] at h
  | cons a t => rfl

lemma dispatch_put_id (id : String) :
    dispatch Method.PUT ["api", "products", id] = some HTag.update := rfl

lemma dispatch_delete_id (id : String) :
    dispatch Method.DELETE ["api", "products", id] = some HTag.remove := rfl

lemma runRoute_preserves_nodup (tag : HTag) (freshId : String)
    (store : List Product) (req : Request) (r : Response) (st : List Product)
    (h1 : idsNodup store) (h2 : freshId ∉ store.map Product.id)
    (heq : runRoute tag freshId store req = Except.ok (r, st)) : idsNodup st := by
  cases tag with
  | root =>
    simp only [runRoute, Except.ok.injEq, Prod.mk.injEq] at heq
    rw [← heq.2]
    exact h1
  | list =>
    simp only [runRoute, Except.ok.injEq, Prod.mk.injEq] at heq
    rw [← heq.2]
    exact h1
  | search =>
    simp only [runRoute, Except.ok.injEq, Prod.mk.injEq] at heq
    rw [← heq.2]
    exact h1
  | stats =>
    simp only [runRoute, Except.ok.injEq, Prod.mk.injEq] at heq
    rw [← heq.2]
    exact h1
  | getById =>
    simp only [runRoute] at heq
    unfold getByIdRoute at heq
    split at heq
    · exact absurd heq (by simp)
    · simp only [Except.ok.injEq, Prod.mk.injEq] at heq
      rw [← heq.2]
      exact h1
  | create =>
    simp only [runRoute] at heq
    unfold createRoute at heq
    split at heq
    · exact absurd heq (by simp)
    · rename_i p hp
      simp only [Except.ok.injEq, Prod.mk.injEq] at heq
      rw [← heq.2]
      apply nodup_append_fresh store p h1
      rw [(extractProduct_spec freshId req.body p hp).1]
      exact h2
  | update =>
    simp only [runRoute] at heq
    unfold updateRoute at heq
    split at heq
    · exact absurd heq (by simp)
    · rename_i p hp
      split at heq
      · exact absurd heq (by simp)
      · rename_i i hi
        simp only [Except.ok.injEq, Prod.mk.injEq] at heq
        rw [← heq.2]
        unfold idsNodup
        rw [map_id_set (pathParam req.path) p
          (extractProduct_spec (pathParam req.path) req.body p hp).1 store i hi]
        exact h1
  | remove =>
    simp only [runRoute] at heq
    unfold deleteRoute at heq
    split at heq
    · exact absurd heq (by simp)
    · rename_i i hi
      simp only [Except.ok.injEq, Prod.mk.injEq] at heq
      rw [← heq.2]
      unfold idsNodup
      exact List.Nodup.sublist ((removeAt_sublist store i).map Product.id) h1

/-! ### Claim theorems -/

/-- C1 (code bug): `GET /api/products/search` never reaches the search
handler. Express matches routes in registration order and the
`GET /api/products/:id` route (registered earlier) matches the path with
`id = "search"`, so the request is answered 404 `Product not found`
instead of the specified 200 array / 400 missing-parameter error. The
third conjunct shows the (unreachable) search handler itself would have
produced the specified 200 array. -/
theorem C1_search_shadowed_by_id_route :
    dispatch Method.GET ["api", "products", "search"] = some HTag.getById ∧
    (runApp "f1" [⟨"id-1", "Red Mug", "ceramic", 5, "Mugs", true⟩]
        ⟨Method.GET, ["api", "products", "search"], [("name", "red")],
         [("x-api-key", "mysecretapikey")], []⟩).resp
      = ⟨404, RespBody.jsonErr "Product not found"⟩ ∧
    searchRoute [⟨"id-1", "Red Mug", "ceramic", 5, "Mugs", true⟩] [("name", "red")]
      = ⟨200, RespBody.productList [⟨"id-1", "Red Mug", "ceramic", 5, "Mugs", true⟩]⟩ := by
  refine ⟨rfl, ?_, ?_⟩ <;> decide

/-- C2 (code bug): `GET /api/products/stats` is likewise shadowed by the
earlier `GET /api/products/:id` route (`id = "stats"`), so it is answered
404 `Product not found` instead of the specified 200 category-count
mapping. The third conjunct shows the (unreachable) stats handler itself
would have produced the case-sensitive tally. -/
theorem C2_stats_shadowed_by_id_route :
    dispatch Method.GET ["api", "products", "stats"] = some HTag.getById ∧
    (runApp "f1" [⟨"id-1", "Hammer", "steel", 3, "Tools", true⟩,
                  ⟨"id-2", "Saw", "sharp", 4, "Tools", false⟩]
        ⟨Method.GET, ["api", "products", "stats"], [],
         [("x-api-key", "mysecretapikey")], []⟩).resp
      = ⟨404, RespBody.jsonErr "Product not found"⟩ ∧
    statsRoute [⟨"id-1", "Hammer", "steel", 3, "Tools", true⟩,
                ⟨"id-2", "Saw", "sharp", 4, "Tools", false⟩]
      = ⟨200, RespBody.statsMap [("Tools", 2)]⟩ := by
  refine ⟨rfl, ?_, ?_⟩ <;> decide

/-- C3 counterexample: on an unauthorized products request the JSON body
parser DOES execute, because `bodyParser.json()` is mounted globally
before the auth gate; this refutes the claimed short-circuit before body
parsing (the response is still the specified 401). -/
theorem C3_cex_bodyparser_runs_before_auth :
    (runApp "f1" [] ⟨Method.GET, ["api", "products"], [], [], []⟩).resp.status = 401 ∧
    Stage.bodyParse ∈ (runApp "f1" [] ⟨Method.GET, ["api", "products"], [], [], []⟩).trace := by
  constructor <;> decide

/-- C3 (amended): for every request under `/api/products` whose
`x-api-key` header is absent or not exactly the shared secret, the
response is 401 with body error `Unauthorized: Invalid or missing API
key`, the store is unchanged, and the rejection short-circuits before
handler dispatch — the trace is exactly bodyParse, logger, auth, so no
handler runs, but body parsing has already happened. -/
theorem C3_amended_auth_rejects (freshId : String) (store : List Product)
    (req : Request) (hpath : isProductsPath req.path = true)
    (hauth : authRejects (lookupKV req.headers "x-api-key") = true) :
    runApp freshId store req
      = ⟨⟨401, RespBody.jsonErr "Unauthorized: Invalid or missing API key"⟩, store,
         [Stage.bodyParse, Stage.logger, Stage.auth]⟩ := by
  unfold runApp
  rw [isRootGet_eq_false_of_products hpath, hpath, hauth]
  simp

/-- Witness for C3 (amended) at a concrete unauthorized request. -/
theorem C3_amended_witness :
    runApp "f1" [] ⟨Method.GET, ["api", "products"], [], [("x-api-key", "wrong")], []⟩
      = ⟨⟨401, RespBody.jsonErr "Unauthorized: Invalid or missing API key"⟩, [],
         [Stage.bodyParse, Stage.logger, Stage.auth]⟩ :=
  C3_amended_auth_rejects "f1" []
    ⟨Method.GET, ["api", "products"], [], [("x-api-key", "wrong")], []⟩
    (by decide) (by decide)

/-- C4 counterexample: the Validator accepts an empty name (`typeof ""`
is `"string"`), so a create request with name `""` is answered 201 and
stores a product whose name is empty — refuting the non-empty-name part
of the claimed invariant. -/
theorem C4_cex_empty_name_stored :
    (runApp "fresh-1" []
        ⟨Method.POST, ["api", "products"], [], [("x-api-key", "mysecretapikey")],
         [("name", JsVal.str ""), ("description", JsVal.str "d"),
          ("price", JsVal.num 2), ("category", JsVal.str "c"),
          ("inStock", JsVal.bool true)]⟩).resp.status = 201 ∧
    (runApp "fresh-1" []
        ⟨Method.POST, ["api", "products"], [], [("x-api-key", "mysecretapikey")],
         [("name", JsVal.str ""), ("description", JsVal.str "d"),
          ("price", JsVal.num 2), ("category", JsVal.str "c"),
          ("inStock", JsVal.bool true)]⟩).store.map Product.name = [""] := by
  constructor <;> decide

/-- C4 (amended): every request preserves the invariant that stored
products have pairwise distinct ids, assuming the freshly generated uuid
is not already present (the five business fields are present and
correctly typed by construction; the Validator enforces the types before
any write but does not require the name to be non-empty). -/
theorem C4_amended_unique_ids_preserved (freshId : String) (store : List Product)
    (req : Request) (h1 : idsNodup store) (h2 : freshId ∉ store.map Product.id) :
    idsNodup (runApp freshId store req).store := by
  unfold runApp
  split
  · exact h1
  · split
    · split
      · exact h1
      · split
        · split
          · rename_i heq
            exact runRoute_preserves_nodup _ freshId store req _ _ h1 h2 heq
          · exact h1
        · exact h1
    · exact h1

/-- Witness for C4 (amended) at a concrete create request. -/
theorem C4_amended_witness :
    idsNodup (runApp "fresh-2" [⟨"a", "Pen", "ink", 1, "st", true⟩]
        ⟨Method.POST, ["api", "products"], [], [("x-api-key", "mysecretapikey")],
         [("name", JsVal.str "Cup"), ("description", JsVal.str "big"),
          ("price", JsVal.num 3), ("category", JsVal.str "kitchen"),
          ("inStock", JsVal.bool false)]⟩).store :=
  C4_amended_unique_ids_preserved "fresh-2" [⟨"a", "Pen", "ink", 1, "st", true⟩]
    ⟨Method.POST, ["api", "products"], [], [("x-api-key", "mysecretapikey")],
     [("name", JsVal.str "Cup"), ("description", JsVal.str "big"),
      ("price", JsVal.num 3), ("category", JsVal.str "kitchen"),
      ("inStock", JsVal.bool false)]⟩ (by decide) (by decide)

lemma listHandler_congr (store : List Product) (q1 q2 : List (String × String))
    (hc : filteredOf store q1 = filteredOf store q2)
    (hp : pageOf (lookupKV q1 "page") = pageOf (lookupKV q2 "page"))
    (hl : limitOf (lookupKV q1 "limit") = limitOf (lookupKV q2 "limit")) :
    listHandler store q1 = listHandler store q2 := by
  unfold listHandler pageData
  rw [hc, hp, hl]

/-- C5: a PUT whose body fails validation is answered 400 `Invalid product
data` for every store — in particular when no product has the path id —
because the `validateProduct` middleware runs before the existence check;
404 `Product not found` arises only for a valid body whose id is absent. -/
theorem C5_put_validates_before_existence (freshId : String) (store : List Product)
    (id : String) (q hs : List (String × String)) (body : List (String × JsVal))
    (hauth : authRejects (lookupKV hs "x-api-key") = false) :
    (validateProduct body = false →
       (runApp freshId store ⟨Method.PUT, ["api", "products", id], q, hs, body⟩).resp
         = ⟨400, RespBody.jsonErr "Invalid product data"⟩) ∧
    (validateProduct body = true →
       findIndex (fun p => p.id == id) store = none →
       (runApp freshId store ⟨Method.PUT, ["api", "products", id], q, hs, body⟩).resp
         = ⟨404, RespBody.jsonErr "Product not found"⟩) := by
  have hroot : isRootGet Method.PUT ["api", "products", id] = false := rfl
  have hprod : isProductsPath ["api", "products", id] = true := rfl
  have hpp : pathParam ["api", "products", id] = id := rfl
  constructor
  · intro hv
    unfold runApp
    dsimp only
    rw [hroot, hprod, hauth, dispatch_put_id id]
    dsimp only [runRoute]
    rw [hpp]
    unfold updateRoute
    rw [extractProduct_eq_none id body hv]
    simp [errorHandler, AppError.status, AppError.message]
  · intro hv habs
    rcases extractProduct_eq_some id body hv with ⟨p, hp⟩
    unfold runApp
    dsimp only
    rw [hroot, hprod, hauth, dispatch_put_id id]
    dsimp only [runRoute]
    rw [hpp]
    unfold updateRoute
    rw [hp, habs]
    simp [errorHandler, AppError.status, AppError.message]

/-- Witness for C5: invalid empty body on an absent id gives 400; a valid
body on the same absent id gives 404. -/
theorem C5_witness :
    (runApp "f1" [] ⟨Method.PUT, ["api", "products", "zzz"], [],
        [("x-api-key", "mysecretapikey")], []⟩).resp
      = ⟨400, RespBody.jsonErr "Invalid product data"⟩ ∧
    (runApp "f1" [] ⟨Method.PUT, ["api", "products", "zzz"], [],
        [("x-api-key", "mysecretapikey")],
        [("name", JsVal.str "Pen"), ("description", JsVal.str "ink"),
         ("price", JsVal.num 1), ("category", JsVal.str "st"),
         ("inStock", JsVal.bool true)]⟩).resp
      = ⟨404, RespBody.jsonErr "Product not found"⟩ :=
  ⟨(C5_put_validates_before_existence "f1" [] "zzz" []
      [("x-api-key", "mysecretapikey")] [] (by decide)).1 (by decide),
   (C5_put_validates_before_existence "f1" [] "zzz" []
      [("x-api-key", "mysecretapikey")]
      [("name", JsVal.str "Pen"), ("description", JsVal.str "ink"),
       ("price", JsVal.num 1), ("category", JsVal.str "st"),
       ("inStock", JsVal.bool true)] (by decide)).2 (by decide) (by decide)⟩

/-- C6 counterexample: a body with the five correctly typed fields plus an
extra property passes the validator, refuting the claimed
only-exactly-five acceptance. -/
theorem C6_cex_extra_field_accepted :
    validateProduct extraFieldBody = true ∧ ¬ suppliesExactlyFive extraFieldBody := by
  constructor
  · rfl
  · intro h
    have hm : ("extra", JsVal.str "x") ∈ extraFieldBody := by
      unfold extraFieldBody
      simp
    have := h.2 ("extra", JsVal.str "x") hm
    simp at this

/-- C6 (amended): the validator accepts a body exactly when the five
business fields are present with the correct primitive types — extra
properties are ignored, not rejected — and every failing body is rejected
with the one message `Invalid product data` by both create and update. -/
theorem C6_amended_validator (body : List (String × JsVal)) :
    (validateProduct body = true ↔ suppliesFiveTyped body) ∧
    (validateProduct body = false →
       ∀ (freshId : String) (store : List Product),
         createRoute freshId store body
           = Except.error (AppError.validationError "Invalid product data")) ∧
    (validateProduct body = false →
       ∀ (pathId : String) (store : List Product),
         updateRoute pathId store body
           = Except.error (AppError.validationError "Invalid product data")) := by
  refine ⟨?_, ?_, ?_⟩
  · unfold validateProduct suppliesFiveTyped isStringV isNumberV isBooleanV
    rw [Bool.and_eq_true, Bool.and_eq_true, Bool.and_eq_true, Bool.and_eq_true]
    rw [asString_isSome_iff, asString_isSome_iff, asNumber_isSome_iff,
      asString_isSome_iff, asBoolean_isSome_iff]
    tauto
  · intro hv freshId store
    unfold createRoute
    rw [extractProduct_eq_none freshId body hv]
  · intro hv pathId store
    unfold updateRoute
    rw [extractProduct_eq_none pathId body hv]

/-- Witness for C6 (amended) at the empty body. -/
theorem C6_amended_witness :
    createRoute "f1" [] []
      = Except.error (AppError.validationError "Invalid product data") :=
  (C6_amended_validator []).2.1 rfl "f1" []

/-- C7: for positive page `p + 1` and limit `L + 1` (as computed with the
defaulting rules), the list response is 200 with `total` the filtered
pre-slice length and `data` the slice `[(page-1)*limit, page*limit)` of
the filtered sequence; `data` has at most `limit` entries; and the pages
`1..n` concatenate back to the whole filtered sequence once `n * limit`
covers it. -/
theorem C7_list_pagination (store : List Product) (q : List (String × String))
    (p L : Nat)
    (hp : pageOf (lookupKV q "page") = (p : Int) + 1)
    (hl : limitOf (lookupKV q "limit") = (L : Int) + 1) :
    listHandler store q
      = ⟨200, RespBody.envelope ((p : Int) + 1) ((L : Int) + 1)
          (filteredOf store q).length
          (pageData store q ((p : Int) + 1) ((L : Int) + 1))⟩ ∧
    (pageData store q ((p : Int) + 1) ((L : Int) + 1)).length ≤ L + 1 ∧
    (∀ n : Nat, (filteredOf store q).length ≤ n * (L + 1) →
        ((List.range n).map
            (fun k : Nat => pageData store q ((k : Int) + 1) ((L : Int) + 1))).flatten
          = filteredOf store q) := by
  refine ⟨?_, ?_, ?_⟩
  · unfold listHandler
    rw [hp, hl]
  · rw [pageData_nat]
    have hkey : (p + 1) * (L + 1) = p * (L + 1) + (L + 1) := by ring
    simp only [List.length_drop, List.length_take]
    omega
  · intro n hn
    have hmap : (List.range n).map
          (fun k : Nat => pageData store q ((k : Int) + 1) ((L : Int) + 1))
        = (List.range n).map
          (fun k => ((filteredOf store q).take ((k + 1) * (L + 1))).drop (k * (L + 1))) := by
      apply List.map_congr_left
      intro k hk
      exact pageData_nat store q k L
    rw [hmap, flatten_slices (L + 1) (filteredOf store q) n]
    exact List.take_of_length_le hn

/-- Witness for C7: one product, explicit page 1, default limit 10. -/
theorem C7_witness :
    listHandler [⟨"a", "Pen", "ink", 1, "st", true⟩] [("page", "1")]
      = ⟨200, RespBody.envelope 1 10 1 [⟨"a", "Pen", "ink", 1, "st", true⟩]⟩ := by
  have h := (C7_list_pagination [⟨"a", "Pen", "ink", 1, "st", true⟩]
    [("page", "1")] 0 9 (by decide) (by decide)).1
  exact h.trans (by decide)

/-- C8: for an existing id and a valid body, update replaces the slot with
a record carrying exactly the body fields and the path id (any `id`
property in the body is ignored), and a subsequent get-by-id returns that
record. -/
theorem C8_update_then_get (store : List Product) (id : String)
    (body : List (String × JsVal)) (p : Product) (i : Nat)
    (hv : extractProduct id body = some p)
    (hi : findIndex (fun q => q.id == id) store = some i) :
    updateRoute id store body = Except.ok (⟨200, RespBody.product p⟩, store.set i p) ∧
    getByIdRoute (store.set i p) id
      = Except.ok (⟨200, RespBody.product p⟩, store.set i p) ∧
    p.id = id ∧
    asString (getField body "name") = some p.name ∧
    asString (getField body "description") = some p.description ∧
    asNumber (getField body "price") = some p.price ∧
    asString (getField body "category") = some p.category ∧
    asBoolean (getField body "inStock") = some p.inStock ∧
    (∀ jv : JsVal, extractProduct id (("id", jv) :: body) = some p) := by
  obtain ⟨hpid, h1, h2, h3, h4, h5⟩ := extractProduct_spec id body p hv
  refine ⟨?_, ?_, hpid, h1, h2, h3, h4, h5, ?_⟩
  · unfold updateRoute
    rw [hv, hi]
  · unfold getByIdRoute
    rw [find?_set_self id p (beq_iff_eq.mpr hpid) store i hi]
  · intro jv
    unfold extractProduct at hv ⊢
    rw [getField_cons_of_ne "id" jv body "name" rfl,
        getField_cons_of_ne "id" jv body "description" rfl,
        getField_cons_of_ne "id" jv body "price" rfl,
        getField_cons_of_ne "id" jv body "category" rfl,
        getField_cons_of_ne "id" jv body "inStock" rfl]
    exact hv

/-- Witness for C8: update of the only product, body carrying a bogus
`id` property, then get-by-id. -/
theorem C8_witness :
    updateRoute "X" [⟨"X", "Old", "old", 1, "c", true⟩]
        [("name", JsVal.str "New"), ("description", JsVal.str "fresh"),
         ("price", JsVal.num 2), ("category", JsVal.str "d"),
         ("inStock", JsVal.bool false), ("id", JsVal.str "EVIL")]
      = Except.ok (⟨200, RespBody.product ⟨"X", "New", "fresh", 2, "d", false⟩⟩,
          [⟨"X", "Old", "old", 1, "c", true⟩].set 0 ⟨"X", "New", "fresh", 2, "d", false⟩) ∧
    getByIdRoute
        ([⟨"X", "Old", "old", 1, "c", true⟩].set 0 ⟨"X", "New", "fresh", 2, "d", false⟩) "X"
      = Except.ok (⟨200, RespBody.product ⟨"X", "New", "fresh", 2, "d", false⟩⟩,
          [⟨"X", "Old", "old", 1, "c", true⟩].set 0 ⟨"X", "New", "fresh", 2, "d", false⟩) :=
  ⟨(C8_update_then_get [⟨"X", "Old", "old", 1, "c", true⟩] "X"
      [("name", JsVal.str "New"), ("description", JsVal.str "fresh"),
       ("price", JsVal.num 2), ("category", JsVal.str "d"),
       ("inStock", JsVal.bool false), ("id", JsVal.str "EVIL")]
      ⟨"X", "New", "fresh", 2, "d", false⟩ 0 (by decide) (by decide)).1,
   (C8_update_then_get [⟨"X", "Old", "old", 1, "c", true⟩] "X"
      [("name", JsVal.str "New"), ("description", JsVal.str "fresh"),
       ("price", JsVal.num 2), ("category", JsVal.str "d"),
       ("inStock", JsVal.bool false), ("id", JsVal.str "EVIL")]
      ⟨"X", "New", "fresh", 2, "d", false⟩ 0 (by decide) (by decide)).2.1⟩

/-- C9: for an id present in a store with distinct ids, delete answers 204
with an empty body and removes exactly the matching slot, after which
get-by-id raises `NotFoundError` (mapped to 404); delete of an absent id
raises `NotFoundError`. -/
theorem C9_delete_then_get (store : List Product) (id : String)
    (hnd : idsNodup store) :
    (∀ i, findIndex (fun q => q.id == id) store = some i →
        deleteRoute id store = Except.ok (⟨204, RespBody.empty⟩, removeAt store i) ∧
        getByIdRoute (removeAt store i) id
          = Except.error (AppError.notFoundError "Product not found")) ∧
    (findIndex (fun q => q.id == id) store = none →
        deleteRoute id store
          = Except.error (AppError.notFoundError "Product not found")) := by
  constructor
  · intro i hi
    constructor
    · unfold deleteRoute
      rw [hi]
    · unfold getByIdRoute
      rw [find?_removeAt_eq_none id store i hnd hi]
  · intro hnone
    unfold deleteRoute
    rw [hnone]

/-- Witness for C9: delete the first of two products, then get it; delete
of an absent id fails. -/
theorem C9_witness :
    deleteRoute "a" [⟨"a", "A", "d", 1, "c", true⟩, ⟨"b", "B", "d", 1, "c", true⟩]
      = Except.ok (⟨204, RespBody.empty⟩,
          removeAt [⟨"a", "A", "d", 1, "c", true⟩, ⟨"b", "B", "d", 1, "c", true⟩] 0) ∧
    getByIdRoute
        (removeAt [⟨"a", "A", "d", 1, "c", true⟩, ⟨"b", "B", "d", 1, "c", true⟩] 0) "a"
      = Except.error (AppError.notFoundError "Product not found") ∧
    deleteRoute "zzz" [⟨"a", "A", "d", 1, "c", true⟩]
      = Except.error (AppError.notFoundError "Product not found") :=
  ⟨((C9_delete_then_get [⟨"a", "A", "d", 1, "c", true⟩, ⟨"b", "B", "d", 1, "c", true⟩]
       "a" (by decide)).1 0 (by decide)).1,
   ((C9_delete_then_get [⟨"a", "A", "d", 1, "c", true⟩, ⟨"b", "B", "d", 1, "c", true⟩]
       "a" (by decide)).1 0 (by decide)).2,
   (C9_delete_then_get [⟨"a", "A", "d", 1, "c", true⟩] "zzz" (by decide)).2 (by decide)⟩

/-- C10: a page or limit query parameter that parses to 0 behaves exactly
like a missing one (the defaults 1 and 10 apply, so a zero limit never
yields an empty page), while any nonzero parsed integer — in particular a
negative one — is used as given. -/
theorem C10_zero_page_or_limit_defaults :
    (∀ (store : List Product) (rest : List (String × String)),
        lookupKV rest "page" = none →
        listHandler store (("page", "0") :: rest) = listHandler store rest) ∧
    (∀ (store : List Product) (rest : List (String × String)),
        lookupKV rest "limit" = none →
        listHandler store (("limit", "0") :: rest) = listHandler store rest) ∧
    (∀ (o : Option String) (n : Int),
        o.bind parseIntJs = some n → n ≠ 0 → pageOf o = n ∧ limitOf o = n) := by
  refine ⟨?_, ?_, ?_⟩
  · intro store rest h
    apply listHandler_congr
    · unfold filteredOf
      rw [lookupKV_cons_of_ne "page" "0" rest "category" rfl]
    · rw [lookupKV_cons_self "page" "0" rest, h]
      decide
    · rw [lookupKV_cons_of_ne "page" "0" rest "limit" rfl]
  · intro store rest h
    apply listHandler_congr
    · unfold filteredOf
      rw [lookupKV_cons_of_ne "limit" "0" rest "category" rfl]
    · rw [lookupKV_cons_of_ne "limit" "0" rest "page" rfl]
    · rw [lookupKV_cons_self "limit" "0" rest, h]
      decide
  · intro o n hbind hn
    unfold pageOf limitOf jsOr
    rw [hbind]
    simp [hn]

/-- Witness for C10: `limit=0` equals no limit parameter; `-5` parses and
is used as the page value. -/
theorem C10_witness :
    listHandler [] [("limit", "0")] = listHandler [] [] ∧
    pageOf (some "-5") = -5 := by
  constructor
  · exact C10_zero_page_or_limit_defaults.2.1 [] [] rfl
  · exact (C10_zero_page_or_limit_defaults.2.2 (some "-5") (-5)
      (by decide) (by decide)).1
